import Mathlib

/-!
Shallow embedding of the weather dashboard core (cache policy, retry
wrapper, fetchers) and proofs of the specified properties.

Conventions of the embedding:
* JavaScript numbers that carry measurements or coordinates are modelled
  as rationals; millisecond timestamps as integers; HTTP status codes and
  millisecond delays as naturals.
* An asynchronous operation is modelled as a pure function from its
  (abstracted) network responses to its result, together with explicit
  records of the side effects the claims talk about (requests issued,
  state fields written, cache writes).
* A thrown JavaScript error is an `Except.error`; an HTTP response that
  arrived but was not `ok` is a record with `ok := false`.
-/

namespace Weather

/-! ### Retry wrapper (`withRetry`, services/geminiService.ts)

Source:
```
async function withRetry<T>(fn, retries = 3, delay = 1000): Promise<T> {
  try { return await fn(); } catch (error) {
    const status = error?.status || error?.error?.status;
    const isTransient = status === 503 || status === 504 || status === 429;
    if (retries > 0 && isTransient) {
      await new Promise(resolve => setTimeout(resolve, delay));
      return withRetry(fn, retries - 1, delay * 2);
    }
    throw error;
  }
}
```
-/

/-- A thrown error object as `withRetry` inspects it: `error?.status` and
`error?.error?.status`, each possibly absent. -/
structure ErrObj where
  status : Option Nat
  errorStatus : Option Nat
deriving DecidableEq

/-- JavaScript `a || b` on two optional status numbers: `a` is used unless
it is absent or the falsy value `0`. -/
def jsOrStatus (a b : Option Nat) : Option Nat :=
  match a with
  | some v => if v = 0 then b else some v
  | none => b

/-- Source line `const status = error?.status || error?.error?.status`. -/
def errStatus (e : ErrObj) : Option Nat :=
  jsOrStatus e.status e.errorStatus

/-- Source line `status === 503 || status === 504 || status === 429`. -/
def isTransient (e : ErrObj) : Bool :=
  errStatus e == some 503 || errStatus e == some 504 || errStatus e == some 429

/-- Observable outcome of a `withRetry` run: the final result, how many
times `fn` was invoked, and the delays slept between consecutive
invocations (in order). -/
structure RetryTrace (T : Type) where
  result : Except ErrObj T
  calls : Nat
  delays : List Nat

/-- The call `withRetry fn attempt retries delay`: the operation is
modelled as a function from the invocation index to the outcome of that
invocation
(`attempt` is the index of the next invocation; a run starts at 0). The
recursion follows the source: a retry happens exactly when the invocation
threw, `retries > 0`, and the error is transient; the delay doubles. -/
def withRetry {T : Type} (fn : Nat → Except ErrObj T) : Nat → Nat → Nat → RetryTrace T
  | attempt, 0, _delay =>
    match fn attempt with
    | Except.ok v => ⟨Except.ok v, 1, []⟩
    | Except.error e => ⟨Except.error e, 1, []⟩
  | attempt, r + 1, delay =>
    match fn attempt with
    | Except.ok v => ⟨Except.ok v, 1, []⟩
    | Except.error e =>
      if isTransient e then
        let rest := withRetry fn (attempt + 1) r (delay * 2)
        ⟨rest.result, rest.calls + 1, delay :: rest.delays⟩
      else ⟨Except.error e, 1, []⟩

/-! ### Location search (`searchLocation`, services/weatherService.ts)

Source:
```
export const searchLocation = async (query: string): Promise<GeocodingResult[]> => {
  if (query.length < 2) return [];
  const response = await fetch(GEO_URL + ...);
  const data = await response.json();
  if (!data.results) return [];
  const mappedResults = data.results.map(item => ({name, country, latitude, longitude}));
  const uniqueResultsMap = new Map<string, GeocodingResult>();
  mappedResults.forEach(res => {
    const key = (res.name + "|" + res.country).toLowerCase();
    if (!uniqueResultsMap.has(key)) uniqueResultsMap.set(key, res);
  });
  return Array.from(uniqueResultsMap.values()).slice(0, 5);
};
```
The upstream `data.results` (after the per-item field renaming, which is
the identity on the four retained fields) is passed in as an argument;
`none` models an absent `results` field. The second component of the
output records whether the network was contacted. -/

structure GeocodingResult where
  name : String
  country : String
  latitude : ℚ
  longitude : ℚ
deriving DecidableEq

/-- JavaScript `toLowerCase()`: lower-casing applied to every character of the
string, modelled on the underlying character list. -/
def strToLower (s : String) : String :=
  ⟨s.data.map Char.toLower⟩

/-- The composite deduplication key: `(name + "|" + country).toLowerCase()`. -/
def dedupeKey (r : GeocodingResult) : String :=
  strToLower (r.name ++ "|" ++ r.country)

/-- Insertion into a `Map` keyed by `dedupeKey`, keeping the first
occurrence of each key, in insertion order (JavaScript `Map` semantics);
`seen` is the set of keys already present. -/
def dedupeByKey : List GeocodingResult → List String → List GeocodingResult
  | [], _ => []
  | r :: rest, seen =>
    if dedupeKey r ∈ seen then dedupeByKey rest seen
    else r :: dedupeByKey rest (dedupeKey r :: seen)

def searchLocation (query : String) (results : Option (List GeocodingResult)) :
    List GeocodingResult × Bool :=
  if query.length < 2 then ([], false)
  else
    match results with
    | none => ([], true)
    | some rs => ((dedupeByKey rs []).take 5, true)

/-! ### Weather code descriptions (`getWeatherDescription`, services/weatherService.ts) -/

structure WeatherDesc where
  text : String
  icon : String
  bg : String
  image : String
  animate : String
deriving DecidableEq

/-- The `codes` record literal: the ten explicitly mapped weather codes. -/
def codes (c : ℤ) : Option WeatherDesc :=
  if c = 0 then some ⟨"Clear Sky", "fa-sun", "from-cyan-400 via-blue-500 to-indigo-600", "sunny", "animate-slow-spin"⟩
  else if c = 1 then some ⟨"Mainly Clear", "fa-cloud-sun", "from-sky-400 via-blue-500 to-blue-700", "clear-sky", "animate-pulse-soft"⟩
  else if c = 2 then some ⟨"Partly Cloudy", "fa-cloud-sun", "from-blue-300 via-sky-400 to-indigo-500", "partly-cloudy", "animate-float"⟩
  else if c = 3 then some ⟨"Overcast", "fa-cloud", "from-slate-400 via-gray-500 to-slate-600", "overcast", "animate-sway"⟩
  else if c = 45 then some ⟨"Fog", "fa-smog", "from-slate-500 via-zinc-600 to-slate-700", "foggy", "animate-pulse-soft"⟩
  else if c = 48 then some ⟨"Depositing Rime Fog", "fa-smog", "from-zinc-500 via-gray-600 to-zinc-700", "foggy", "animate-pulse-soft"⟩
  else if c = 51 then some ⟨"Light Drizzle", "fa-cloud-rain", "from-blue-500 via-indigo-600 to-violet-700", "drizzle", "animate-bounce"⟩
  else if c = 61 then some ⟨"Slight Rain", "fa-cloud-showers-heavy", "from-blue-700 via-indigo-800 to-slate-900", "rainy", "animate-bounce"⟩
  else if c = 71 then some ⟨"Slight Snow", "fa-snowflake", "from-blue-50 via-sky-100 to-indigo-200", "snowy", "animate-sway"⟩
  else if c = 95 then some ⟨"Thunderstorm", "fa-bolt-lightning", "from-gray-800 via-slate-900 to-black", "thunderstorm", "animate-bolt"⟩
  else none

/-- The fallback record returned for any unmapped code. -/
def unknownWeatherDesc : WeatherDesc :=
  ⟨"Unknown", "fa-question", "from-slate-600 via-gray-700 to-slate-800", "weather", ""⟩

/-- The function `getWeatherDescription`: range dispatch followed by direct lookup, with
the `result || fallback` default. Weather codes are integral in the
upstream API; the argument ranges over all integers. -/
def getWeatherDescription (code : ℤ) : WeatherDesc :=
  let result : Option WeatherDesc :=
    if 51 ≤ code ∧ code ≤ 55 then codes 51
    else if 61 ≤ code ∧ code ≤ 65 then codes 61
    else if 80 ≤ code ∧ code ≤ 82 then codes 61
    else if 71 ≤ code ∧ code ≤ 75 then codes 71
    else if 95 ≤ code then codes 95
    else codes code
  result.getD unknownWeatherDesc

/-- The set of codes the mapping covers: 0 to 3, 45, 48, 51 to 55,
61 to 65, 71 to 75, 80 to 82, and everything from 95 up. -/
def mappedWeatherCode (code : ℤ) : Prop :=
  (0 ≤ code ∧ code ≤ 3) ∨ code = 45 ∨ code = 48 ∨ (51 ≤ code ∧ code ≤ 55) ∨
    (61 ≤ code ∧ code ≤ 65) ∨ (71 ≤ code ∧ code ≤ 75) ∨ (80 ≤ code ∧ code ≤ 82) ∨
    95 ≤ code

instance (code : ℤ) : Decidable (mappedWeatherCode code) := by
  unfold mappedWeatherCode; infer_instance

/-! ### Weather fetch (`fetchWeather`, services/weatherService.ts)

Source:
```
const [weatherRes, aqiRes] = await Promise.all([fetch(BASE_URL...), fetch(AQI_URL...)]);
if (!weatherRes.ok) throw new Error('Failed to fetch weather data');
const weatherData = await weatherRes.json();
let aqiValue = 0;
if (aqiRes.ok) {
  const aqiData = await aqiRes.json();
  aqiValue = aqiData.current?.us_aqi || 0;
}
return { ... };
```
The outcomes of the two upstream calls (forecast and air quality) are
arguments. Each is an `Except Unit (HttpResponse ...)`: `Except.error`
models a `fetch` promise that rejected (network-level failure), and an
arrived response carries its `ok` flag and a body whose `.json()` parse
may itself throw (the inner `Except`). A rejection of either promise
propagates through `Promise.all` and fails the whole fetch, as does a
`.json()` throw, since `fetchWeather` has no try/catch; only an arrived
air-quality response with `ok = false` degrades to `aqi = 0`.

The first component of the result is the list of requests handed to
`Promise.all`, which the source builds from the coordinates alone, before
either response is available — both calls are issued before either is
awaited, and the request list is therefore independent of both response
values. -/

structure LocationInfo where
  name : String
  country : String
  latitude : ℚ
  longitude : ℚ
  timezone : String
deriving DecidableEq

structure CurrentWeather where
  temp : ℚ
  weatherCode : ℤ
  isDay : Bool
  windSpeed : ℚ
  windDirection : ℚ
  humidity : ℚ
  uvIndex : ℚ
  apparentTemp : ℚ
  aqi : ℚ
deriving DecidableEq

structure HourlySeries where
  time : List String
  temperature : List ℚ
  precipitation : List ℚ
  weatherCode : List ℤ
deriving DecidableEq

structure DailySeries where
  time : List String
  tempMax : List ℚ
  tempMin : List ℚ
  weatherCode : List ℤ
deriving DecidableEq

structure WeatherData where
  current : CurrentWeather
  hourly : HourlySeries
  daily : DailySeries
  location : LocationInfo
deriving DecidableEq

structure ForecastCurrent where
  temperature_2m : ℚ
  relative_humidity_2m : ℚ
  apparent_temperature : ℚ
  is_day : ℤ
  weather_code : ℤ
  wind_speed_10m : ℚ
  wind_direction_10m : ℚ
  uv_index : ℚ
deriving DecidableEq

structure ForecastHourly where
  time : List String
  temperature_2m : List ℚ
  precipitation_probability : List ℚ
  weather_code : List ℤ
deriving DecidableEq

structure ForecastDaily where
  time : List String
  temperature_2m_max : List ℚ
  temperature_2m_min : List ℚ
  weather_code : List ℤ
deriving DecidableEq

structure ForecastResponse where
  current : ForecastCurrent
  hourly : ForecastHourly
  daily : ForecastDaily
  timezone : String
deriving DecidableEq

/-- The air-quality response body: `aqiData.current?.us_aqi`, absent when
either the `current` object or the `us_aqi` field is missing. -/
structure AqiResponse where
  current_us_aqi : Option ℚ
deriving DecidableEq

structure HttpResponse (α : Type) where
  ok : Bool
  body : α

/-- The two HTTP requests `fetchWeather` hands to `Promise.all`. -/
inductive ApiRequest where
  | forecast (lat lon : ℚ)
  | airQuality (lat lon : ℚ)
deriving DecidableEq

/-- JavaScript `v || 0` on an optional number. -/
def jsOrZero (v : Option ℚ) : ℚ :=
  match v with
  | some x => if x = 0 then 0 else x
  | none => 0

/-- How a `fetchWeather` run can fail: a rejected underlying `fetch`
promise propagated by `Promise.all`, a rejected `.json()` parse promise,
or the explicitly thrown `Error('Failed to fetch weather data')`. -/
inductive FetchError where
  | rejected
  | parseFailure
  | thrown (msg : String)
deriving DecidableEq

def fetchWeather (lat lon : ℚ) (locationName country : String)
    (weatherFetch : Except Unit (HttpResponse (Except Unit ForecastResponse)))
    (aqiFetch : Except Unit (HttpResponse (Except Unit AqiResponse))) :
    List ApiRequest × Except FetchError WeatherData :=
  ([ApiRequest.forecast lat lon, ApiRequest.airQuality lat lon],
    match weatherFetch, aqiFetch with
    | Except.error _, _ => Except.error FetchError.rejected
    | Except.ok _, Except.error _ => Except.error FetchError.rejected
    | Except.ok weatherRes, Except.ok aqiRes =>
      if weatherRes.ok = false then
        Except.error (FetchError.thrown "Failed to fetch weather data")
      else
        match weatherRes.body with
        | Except.error _ => Except.error FetchError.parseFailure
        | Except.ok weatherData =>
          match (if aqiRes.ok then
              match aqiRes.body with
              | Except.error e => Except.error e
              | Except.ok aqiData => Except.ok (jsOrZero aqiData.current_us_aqi)
            else Except.ok 0 : Except Unit ℚ) with
          | Except.error _ => Except.error FetchError.parseFailure
          | Except.ok aqiValue =>
            Except.ok
              { current :=
                  { temp := weatherData.current.temperature_2m
                    weatherCode := weatherData.current.weather_code
                    isDay := weatherData.current.is_day == 1
                    windSpeed := weatherData.current.wind_speed_10m
                    windDirection := weatherData.current.wind_direction_10m
                    humidity := weatherData.current.relative_humidity_2m
                    uvIndex := weatherData.current.uv_index
                    apparentTemp := weatherData.current.apparent_temperature
                    aqi := aqiValue }
                hourly :=
                  { time := weatherData.hourly.time
                    temperature := weatherData.hourly.temperature_2m
                    precipitation := weatherData.hourly.precipitation_probability
                    weatherCode := weatherData.hourly.weather_code }
                daily :=
                  { time := weatherData.daily.time
                    tempMax := weatherData.daily.temperature_2m_max
                    tempMin := weatherData.daily.temperature_2m_min
                    weatherCode := weatherData.daily.weather_code }
                location :=
                  { name := locationName
                    country := country
                    latitude := lat
                    longitude := lon
                    timezone := weatherData.timezone } })

/-! ### Location news (`fetchLocationNews`, services/newsService.ts)

The proxy response is an argument: `Except.error` models a thrown fetch
or JSON-parse error, `body = none` a payload that is not a nonempty check
candidate array. The AI fallback result is also an argument. The output
records the returned list, whether the proxy was contacted, and whether
the AI fallback was invoked. -/

structure NewsItem where
  title : String
  snippet : String
  url : String
  source : String
  date : String
deriving DecidableEq

structure ProxyResponse where
  ok : Bool
  contentTypeJson : Bool
  body : Option (List NewsItem)

def fetchLocationNews (locationName : String) (proxy : Except Unit ProxyResponse)
    (aiNews : List NewsItem) : List NewsItem × Bool × Bool :=
  if locationName = "" then ([], false, false)
  else
    match proxy with
    | Except.error _ => (aiNews, true, true)
    | Except.ok resp =>
      if resp.ok && resp.contentTypeJson then
        match resp.body with
        | some data => if 0 < data.length then (data, true, false) else (aiNews, true, true)
        | none => (aiNews, true, true)
      else (aiNews, true, true)

/-! ### Weather load orchestration (`loadWeather`, App.tsx)

Source:
```
const loadWeather = useCallback(async (lat, lon, name, country, forceRefresh = false) => {
  const cachedWeather = getCache(CACHE_KEY_WEATHER);
  if (!forceRefresh && cachedWeather && isCacheValid(cachedWeather.timestamp, WEATHER_TTL)) {
    const data = cachedWeather.data as WeatherData;
    if (Math.abs(data.location.latitude - lat) < 0.05 && Math.abs(data.location.longitude - lon) < 0.05) {
      setWeather(data); setLoading(false); updateAiInsight(data); return;
    }
  }
  setLoading(true); setError(null);
  try {
    const data = await fetchWeather(lat, lon, name, country);
    setWeather(data); setCache(CACHE_KEY_WEATHER, data);
  } catch (err) { setError(...); } finally { setLoading(false); }
}, []);
```
The persistent cache slot for `CACHE_KEY_WEATHER` is part of the state;
`getCache` returning `none` covers both an absent and an unparsable
entry. The outcome of the (abstracted) network call `fetchWeather` is the
`fetchResult` argument; `didFetch` records whether that call was made.
The cache write on success stamps the current time (in the source,
`Date.now()` at write time; the model reuses the single `now` of the
run). The stray `updateAiInsight(data)` call on the cache-hit path
references an identifier whose definition is commented out in the source
and does not perform any weather fetch, so it does not appear in the
model. -/

def WEATHER_TTL : ℤ := 15 * 60 * 1000

/-- The check `isCacheValid(timestamp, ttl)` evaluated at current time `now`:
`(Date.now() - timestamp) < ttl`. -/
def isCacheValid (now timestamp ttl : ℤ) : Bool :=
  decide (now - timestamp < ttl)

structure CacheEntry where
  data : WeatherData
  timestamp : ℤ
deriving DecidableEq

structure AppState where
  weather : Option WeatherData
  loading : Bool
  error : Option String
  cache : Option CacheEntry
deriving DecidableEq

structure LoadResult where
  state : AppState
  didFetch : Bool
deriving DecidableEq

/-- The proximity check of the cache-hit path:
`Math.abs(data.location.latitude - lat) < 0.05 && Math.abs(data.location.longitude - lon) < 0.05`. -/
def sameLocation (loc : LocationInfo) (lat lon : ℚ) : Bool :=
  decide (|loc.latitude - lat| < 5/100) && decide (|loc.longitude - lon| < 5/100)

/-- The fetch path of `loadWeather` (everything after the early return):
`setLoading(true); setError(null); try ... catch ... finally`. -/
def loadWeatherFetch (now : ℤ) (s : AppState) (fetchResult : Except Unit WeatherData) :
    LoadResult :=
  match fetchResult with
  | Except.ok d =>
    ⟨{ weather := some d, loading := false, error := none, cache := some ⟨d, now⟩ }, true⟩
  | Except.error _ =>
    ⟨{ s with loading := false, error := some "Telemetry link failed. Check connection." }, true⟩

def loadWeather (now : ℤ) (s : AppState) (lat lon : ℚ) (name country : String)
    (forceRefresh : Bool) (fetchResult : Except Unit WeatherData) : LoadResult :=
  match s.cache with
  | some cachedWeather =>
    if !forceRefresh && isCacheValid now cachedWeather.timestamp WEATHER_TTL then
      if sameLocation cachedWeather.data.location lat lon then
        ⟨{ s with weather := some cachedWeather.data, loading := false }, false⟩
      else loadWeatherFetch now s fetchResult
    else loadWeatherFetch now s fetchResult
  | none => loadWeatherFetch now s fetchResult

/-! ### Concrete sample data used by the witnesses -/

def sampleLocation : LocationInfo :=
  ⟨"Paris", "France", 4885/100, 235/100, "Europe/Paris"⟩

def sampleCurrent : CurrentWeather :=
  ⟨18, 2, true, 10, 180, 55, 3, 17, 12⟩

def sampleWeather : WeatherData :=
  ⟨sampleCurrent, ⟨[], [], [], []⟩, ⟨[], [], [], []⟩, sampleLocation⟩

def sampleForecast : ForecastResponse :=
  ⟨⟨18, 55, 17, 1, 2, 10, 180, 3⟩, ⟨[], [], [], []⟩, ⟨[], [], [], []⟩, "Europe/Paris"⟩

end Weather

namespace Weather

/-! ## Theorems -/

/-- Claim C3: an operation that fails with a transient status (503, 504 or
429) on every invocation is invoked exactly `maxRetries + 1 = 4` times by
`withRetry` with the default `retries = 3`, `delay = 1000`; the failure
then propagates unchanged, and the waits between consecutive invocations
are 1000 ms, 2000 ms and 4000 ms (each delay double the previous). -/
theorem withRetry_transient_exhausts {T : Type} (fn : Nat → Except ErrObj T) (e : ErrObj)
    (hfail : ∀ n, fn n = Except.error e) (htrans : isTransient e = true) (a : Nat) :
    withRetry fn a 3 1000 = ⟨Except.error e, 4, [1000, 2000, 4000]⟩ := by
  simp [withRetry, hfail, htrans]

/-- Concrete run of `withRetry_transient_exhausts`: an operation that always
fails with HTTP 503. -/
theorem withRetry_transient_exhausts_witness :
    withRetry (T := Unit) (fun _ => Except.error ⟨some 503, none⟩) 0 3 1000
      = ⟨Except.error ⟨some 503, none⟩, 4, [1000, 2000, 4000]⟩ :=
  withRetry_transient_exhausts _ _ (fun _ => rfl) (by decide) 0

/-- Claim C7: an operation whose failure carries a non-transient status is
invoked exactly once; the original failure propagates unchanged, with no
delay and no retry, whatever the remaining retry budget and delay are. -/
theorem withRetry_nonTransient_once {T : Type} (fn : Nat → Except ErrObj T) (e : ErrObj)
    (a retries delay : Nat) (hfail : fn a = Except.error e) (h : isTransient e = false) :
    withRetry fn a retries delay = ⟨Except.error e, 1, []⟩ := by
  cases retries <;> simp [withRetry, hfail, h]

/-- Concrete run of `withRetry_nonTransient_once`: an operation failing with
HTTP 400 is invoked once and its failure propagates with no delays. -/
theorem withRetry_nonTransient_once_witness :
    withRetry (T := Unit) (fun _ => Except.error ⟨some 400, none⟩) 0 3 1000
      = ⟨Except.error ⟨some 400, none⟩, 1, []⟩ :=
  withRetry_nonTransient_once _ _ 0 3 1000 rfl (by decide)

/-- Claim C1: a non-forced `loadWeather` whose cached entry is parsable,
younger than the 15-minute TTL, and within the 0.05-degree proximity
tolerance of the requested coordinates displays the cached payload and
performs no network weather fetch. -/
theorem loadWeather_cacheHit_noFetch (now : ℤ) (s : AppState) (lat lon : ℚ)
    (name country : String) (fetchResult : Except Unit WeatherData) (c : CacheEntry)
    (hcache : s.cache = some c)
    (hfresh : now - c.timestamp < WEATHER_TTL)
    (hlat : |c.data.location.latitude - lat| < 5/100)
    (hlon : |c.data.location.longitude - lon| < 5/100) :
    (loadWeather now s lat lon name country false fetchResult).state.weather = some c.data ∧
      (loadWeather now s lat lon name country false fetchResult).didFetch = false := by
  simp [loadWeather, hcache, isCacheValid, sameLocation, hfresh, hlat, hlon]

/-- Concrete run of `loadWeather_cacheHit_noFetch`: an entry cached 5
minutes ago at the requested coordinates is served without a fetch. -/
theorem loadWeather_cacheHit_noFetch_witness :
    (loadWeather 10000000 ⟨none, true, none, some ⟨sampleWeather, 9700000⟩⟩
        (4885/100) (235/100) "Paris" "France" false (Except.error ())).state.weather
        = some sampleWeather ∧
      (loadWeather 10000000 ⟨none, true, none, some ⟨sampleWeather, 9700000⟩⟩
        (4885/100) (235/100) "Paris" "France" false (Except.error ())).didFetch = false :=
  loadWeather_cacheHit_noFetch 10000000 ⟨none, true, none, some ⟨sampleWeather, 9700000⟩⟩
    (4885/100) (235/100) "Paris" "France" (Except.error ()) ⟨sampleWeather, 9700000⟩ rfl
    (by decide) (by norm_num [sampleWeather, sampleLocation])
    (by norm_num [sampleWeather, sampleLocation])

/-- Claim C5: a forced `loadWeather` always performs the network weather
fetch, whatever the cache holds and whatever the coordinates are. -/
theorem loadWeather_force_fetches (now : ℤ) (s : AppState) (lat lon : ℚ)
    (name country : String) (fetchResult : Except Unit WeatherData) :
    (loadWeather now s lat lon name country true fetchResult).didFetch = true := by
  cases hc : s.cache <;> cases fetchResult <;>
    simp [loadWeather, loadWeatherFetch, hc]

/-- Claim C6: when `loadWeather` reaches the network fetch and the fetch
fails, the user-facing error message is set, no cache write occurs (the
stored entry is exactly the previous one), and the displayed weather is
not replaced. -/
theorem loadWeather_fetchFailure (now : ℤ) (s : AppState) (lat lon : ℚ)
    (name country : String) (force : Bool)
    (h : (loadWeather now s lat lon name country force (Except.error ())).didFetch = true) :
    (loadWeather now s lat lon name country force (Except.error ())).state.error
        = some "Telemetry link failed. Check connection." ∧
      (loadWeather now s lat lon name country force (Except.error ())).state.cache = s.cache ∧
      (loadWeather now s lat lon name country force (Except.error ())).state.weather
        = s.weather := by
  cases hc : s.cache with
  | none => simp [loadWeather, loadWeatherFetch, hc]
  | some c =>
    by_cases h1 : (!force && isCacheValid now c.timestamp WEATHER_TTL) = true
    · by_cases h2 : sameLocation c.data.location lat lon = true
      · simp [loadWeather, hc, h1, h2] at h
      · simp [loadWeather, loadWeatherFetch, hc, h1, h2]
    · simp [loadWeather, loadWeatherFetch, hc, h1]

/-- Concrete run of `loadWeather_fetchFailure`: with an empty cache the
fetch happens; on failure the message is set and the previously displayed
weather and the (empty) cache slot are untouched. -/
theorem loadWeather_fetchFailure_witness :
    (loadWeather 10000000 ⟨some sampleWeather, false, none, none⟩ 0 0 "Oslo" "Norway" false
        (Except.error ())).state.error = some "Telemetry link failed. Check connection." ∧
      (loadWeather 10000000 ⟨some sampleWeather, false, none, none⟩ 0 0 "Oslo" "Norway" false
        (Except.error ())).state.cache = none ∧
      (loadWeather 10000000 ⟨some sampleWeather, false, none, none⟩ 0 0 "Oslo" "Norway" false
        (Except.error ())).state.weather = some sampleWeather :=
  loadWeather_fetchFailure 10000000 ⟨some sampleWeather, false, none, none⟩ 0 0 "Oslo"
    "Norway" false rfl

/-- Claim C2 counterexample: with the forecast call fully succeeding and
only the secondary air-quality `fetch` rejecting at network level, the
whole `fetchWeather` fails — `Promise.all` propagates the rejection — so
the claim that a failure of the secondary air-quality call never fails
the whole fetch is false. -/
theorem fetchWeather_aqiReject_counterexample :
    (fetchWeather 0 0 "Paris" "France" (Except.ok ⟨true, Except.ok sampleForecast⟩)
        (Except.error ())).2 = Except.error FetchError.rejected := rfl

/-- Claim C2 (amended): `fetchWeather` hands both the forecast request
and the air-quality request to `Promise.all` — the issued request list is
built from the coordinates alone and is the same for every pair of call
outcomes, so both are issued before either is awaited. An air-quality
call that arrives with a non-ok HTTP response does not fail the fetch:
the `aqi` field defaults to the sentinel 0. But a network-level rejection
of the air-quality fetch fails the whole fetch through `Promise.all`, and
a failure of the primary forecast call (rejection, or — once both
responses arrived — a non-ok response) always fails the whole fetch. -/
theorem fetchWeather_concurrent_degrade (lat lon : ℚ) (locationName country : String)
    (weatherFetch : Except Unit (HttpResponse (Except Unit ForecastResponse)))
    (aqiFetch : Except Unit (HttpResponse (Except Unit AqiResponse))) :
    (fetchWeather lat lon locationName country weatherFetch aqiFetch).1
        = [ApiRequest.forecast lat lon, ApiRequest.airQuality lat lon] ∧
      (∀ weatherRes aqiRes weatherData,
        weatherFetch = Except.ok weatherRes → weatherRes.ok = true →
        weatherRes.body = Except.ok weatherData →
        aqiFetch = Except.ok aqiRes → aqiRes.ok = false →
        ∃ d, (fetchWeather lat lon locationName country weatherFetch aqiFetch).2
            = Except.ok d ∧ d.current.aqi = 0) ∧
      (aqiFetch = Except.error () →
        (fetchWeather lat lon locationName country weatherFetch aqiFetch).2
          = Except.error FetchError.rejected) ∧
      (weatherFetch = Except.error () →
        (fetchWeather lat lon locationName country weatherFetch aqiFetch).2
          = Except.error FetchError.rejected) ∧
      (∀ weatherRes aqiRes,
        weatherFetch = Except.ok weatherRes → aqiFetch = Except.ok aqiRes →
        weatherRes.ok = false →
        (fetchWeather lat lon locationName country weatherFetch aqiFetch).2
          = Except.error (FetchError.thrown "Failed to fetch weather data")) := by
  refine ⟨rfl, ?_, ?_, ?_, ?_⟩
  · intro weatherRes aqiRes weatherData hw hok hbody ha haok
    subst hw; subst ha
    simp only [fetchWeather, hok, hbody, haok]
    exact ⟨_, rfl, rfl⟩
  · intro ha
    subst ha
    cases weatherFetch <;> simp [fetchWeather]
  · intro hw
    subst hw
    simp [fetchWeather]
  · intro weatherRes aqiRes hw ha hok
    subst hw; subst ha
    simp [fetchWeather, hok]

/-- Concrete runs of `fetchWeather_concurrent_degrade`: an arrived non-ok
air-quality response yields a success with `aqi = 0`; a rejected
air-quality fetch fails the whole fetch; a non-ok forecast response
yields the thrown failure. -/
theorem fetchWeather_concurrent_degrade_witness :
    (∃ d, (fetchWeather 0 0 "Paris" "France" (Except.ok ⟨true, Except.ok sampleForecast⟩)
        (Except.ok ⟨false, Except.ok ⟨some 42⟩⟩)).2 = Except.ok d ∧ d.current.aqi = 0) ∧
      (fetchWeather 0 0 "Oslo" "Norway" (Except.ok ⟨true, Except.ok sampleForecast⟩)
        (Except.error ())).2 = Except.error FetchError.rejected ∧
      (fetchWeather 0 0 "Paris" "France" (Except.ok ⟨false, Except.ok sampleForecast⟩)
        (Except.ok ⟨true, Except.ok ⟨some 42⟩⟩)).2
        = Except.error (FetchError.thrown "Failed to fetch weather data") :=
  ⟨(fetchWeather_concurrent_degrade 0 0 "Paris" "France"
      (Except.ok ⟨true, Except.ok sampleForecast⟩)
      (Except.ok ⟨false, Except.ok ⟨some 42⟩⟩)).2.1
        ⟨true, Except.ok sampleForecast⟩ ⟨false, Except.ok ⟨some 42⟩⟩ sampleForecast
        rfl rfl rfl rfl rfl,
    (fetchWeather_concurrent_degrade 0 0 "Oslo" "Norway"
      (Except.ok ⟨true, Except.ok sampleForecast⟩) (Except.error ())).2.2.1 rfl,
    (fetchWeather_concurrent_degrade 0 0 "Paris" "France"
      (Except.ok ⟨false, Except.ok sampleForecast⟩)
      (Except.ok ⟨true, Except.ok ⟨some 42⟩⟩)).2.2.2.2
        ⟨false, Except.ok sampleForecast⟩ ⟨true, Except.ok ⟨some 42⟩⟩ rfl rfl rfl⟩

/-- Claim C4 counterexample: the query "ab" has length 2, yet
`searchLocation` contacts the network (second component `true`) and
passes upstream results through, so the claim that every query of length
at most 2 yields the empty list without network access is false. -/
theorem searchLocation_len2_counterexample :
    "ab".length ≤ 2 ∧ (searchLocation "ab" none).2 = true ∧
      (searchLocation "ab" (some [⟨"Paris", "France", 4885/100, 235/100⟩])).1
        = [⟨"Paris", "France", 4885/100, 235/100⟩] := by
  exact ⟨by decide, rfl, rfl⟩

/-- Claim C4 (amended): for every query of length strictly less than 2
(at most 1 character), `searchLocation` returns the empty result list
without invoking the network. -/
theorem searchLocation_short_query (query : String) (results : Option (List GeocodingResult))
    (h : query.length < 2) :
    searchLocation query results = ([], false) := by
  simp [searchLocation, h]

/-- Concrete run of `searchLocation_short_query` on the one-character
query "a". -/
theorem searchLocation_short_query_witness :
    searchLocation "a" none = ([], false) :=
  searchLocation_short_query "a" none (by decide)

/-- The function `dedupeByKey` produces a list whose keys are pairwise distinct, and
none of whose keys was already inserted. -/
theorem dedupeByKey_spec (l : List GeocodingResult) :
    ∀ seen : List String,
      (dedupeByKey l seen).Pairwise (fun a b => dedupeKey a ≠ dedupeKey b) ∧
        ∀ r ∈ dedupeByKey l seen, dedupeKey r ∉ seen := by
  induction l with
  | nil => intro seen; simp [dedupeByKey]
  | cons r rest ih =>
    intro seen
    by_cases h : dedupeKey r ∈ seen
    · simpa [dedupeByKey, h] using ih seen
    · constructor
      · simp only [dedupeByKey, if_neg h]
        refine List.pairwise_cons.mpr ⟨?_, (ih _).1⟩
        intro b hb heq
        exact (ih (dedupeKey r :: seen)).2 b hb (heq ▸ List.mem_cons_self _ _)
      · simp only [dedupeByKey, if_neg h]
        intro x hx
        rcases List.mem_cons.mp hx with rfl | hx'
        · exact h
        · intro hxseen
          exact (ih (dedupeKey r :: seen)).2 x hx' (List.mem_cons_of_mem _ hxseen)

/-- Claim C8: the output of `searchLocation` holds at most one entry per
case-insensitive name-and-country key and at most 5 entries; in
particular the two Paris rows differing only in case collapse to one. -/
theorem searchLocation_dedupe_truncate (query : String)
    (results : Option (List GeocodingResult)) :
    ((searchLocation query results).1.Pairwise (fun a b => dedupeKey a ≠ dedupeKey b) ∧
        (searchLocation query results).1.length ≤ 5) ∧
      (searchLocation "Paris"
          (some [⟨"Paris", "France", 4885/100, 235/100⟩,
            ⟨"paris", "FRANCE", 4885/100, 235/100⟩])).1.length = 1 := by
  refine ⟨⟨?_, ?_⟩, by rfl⟩
  · by_cases hq : query.length < 2
    · simp [searchLocation, hq]
    · cases results with
      | none => simp [searchLocation, hq]
      | some rs =>
        simp only [searchLocation, if_neg hq]
        exact List.Pairwise.sublist (List.take_sublist 5 _) (dedupeByKey_spec rs []).1
  · by_cases hq : query.length < 2
    · simp [searchLocation, hq]
    · cases results with
      | none => simp [searchLocation, hq]
      | some rs =>
        simp only [searchLocation, if_neg hq]
        exact List.length_take_le 5 _

/-- Claim C9: for the empty (falsy) location name, `fetchLocationNews`
returns the empty list at once, contacting neither the proxy nor the AI
fallback, whatever those would have answered. -/
theorem fetchLocationNews_emptyName (proxy : Except Unit ProxyResponse)
    (aiNews : List NewsItem) :
    fetchLocationNews "" proxy aiNews = ([], false, false) := by
  simp [fetchLocationNews]

/-- Claim C10: `getWeatherDescription` is a total function by
construction, and every integer code outside the mapped set (0 to 3, 45,
48, 51 to 55, 61 to 65, 71 to 75, 80 to 82, 95 and above) yields exactly
the fixed Unknown fallback record. -/
theorem getWeatherDescription_unmapped_unknown (code : ℤ)
    (h : ¬ mappedWeatherCode code) :
    getWeatherDescription code = unknownWeatherDesc := by
  unfold mappedWeatherCode at h
  have hm : code ≠ 0 ∧ code ≠ 1 ∧ code ≠ 2 ∧ code ≠ 3 ∧ code ≠ 45 ∧ code ≠ 48 ∧
      code ≠ 51 ∧ code ≠ 61 ∧ code ≠ 71 ∧ code ≠ 95 := by omega
  obtain ⟨h0, h1, h2, h3, h45, h48, h51, h61, h71, h95⟩ := hm
  have hc : codes code = none := by
    simp [codes, h0, h1, h2, h3, h45, h48, h51, h61, h71, h95]
  have hr : ¬(51 ≤ code ∧ code ≤ 55) ∧ ¬(61 ≤ code ∧ code ≤ 65) ∧
      ¬(80 ≤ code ∧ code ≤ 82) ∧ ¬(71 ≤ code ∧ code ≤ 75) ∧ ¬(95 ≤ code) := by omega
  obtain ⟨hr1, hr2, hr3, hr4, hr5⟩ := hr
  simp [getWeatherDescription, hr1, hr2, hr3, hr4, hr5, hc]

/-- Concrete run of `getWeatherDescription_unmapped_unknown` at the
unmapped code 42. -/
theorem getWeatherDescription_unmapped_unknown_witness :
    ¬ mappedWeatherCode 42 ∧ getWeatherDescription 42 = unknownWeatherDesc :=
  ⟨by decide, getWeatherDescription_unmapped_unknown 42 (by decide)⟩

end Weather
